import Mathlib

/-!
Verification of the news-deduplication and script-generation core of the
Two-Host AI Newscast pipeline. Python sources are shallowly embedded:
strings are lists of characters, Python floats are modelled as exact
rationals with IEEE-754 double rounding where the rounding is observable,
dictionaries with optional keys become structures with Option fields, and
raising becomes an Except or an Option String error slot.
-/

namespace Newscast

/-! ### Python string primitives over lists of characters -/

/-- Whitespace as Python str.strip, str.split and the regex class \s see it
(the ASCII part; the titles and scripts handled here are ASCII). -/
def isPySpace (c : Char) : Bool :=
  c = ' ' ∨ c = '\t' ∨ c = '\n' ∨ c = '\r' ∨ c = '\x0b' ∨ c = '\x0c'

/-- Drop leading whitespace, as Python str.lstrip. -/
def stripStart (l : List Char) : List Char := l.dropWhile isPySpace

/-- Drop trailing whitespace, as Python str.rstrip. -/
def stripEnd (l : List Char) : List Char := (l.reverse.dropWhile isPySpace).reverse

/-- Python str.strip: drop whitespace at both ends. -/
def pyStrip (l : List Char) : List Char := stripStart (stripEnd l)

/-- Python str.strip on a String. -/
def pyStripS (s : String) : String := String.mk (pyStrip s.data)

/-- Helper for pySplit: accumulate the current word (reversed) while walking
the characters. Words are the maximal runs of non-whitespace characters. -/
def splitWSAux : List Char → List Char → List (List Char)
  | [], [] => []
  | [], acc => [acc.reverse]
  | c :: rest, acc =>
    if isPySpace c then
      if acc = [] then splitWSAux rest [] else acc.reverse :: splitWSAux rest []
    else splitWSAux rest (c :: acc)

/-- Python str.split() with no argument: split on whitespace runs, no empty
pieces. -/
def pySplit (l : List Char) : List (List Char) := splitWSAux l []

/-- The words of a string, as Python s.split(). -/
def splitWords (s : String) : List String := (pySplit s.data).map String.mk

/-- Number of whitespace-separated words, as len(s.split()). -/
def countWords (l : List Char) : Nat := (pySplit l).length

/-! ### The Duration Budgeter (script_generator.py lines 26-31), with Python
float arithmetic embedded exactly: a double is the rational it denotes, and
every operation rounds its exact rational result to 53 significant bits,
nearest, ties to even. Inputs stay far inside the normal range, so overflow
and subnormals do not arise. -/

/-- Round a rational to the nearest integer, ties to even. -/
def rne (m : ℚ) : Int :=
  let fl : Int := ⌊m⌋
  let fr : ℚ := m - fl
  if fr < 1/2 then fl
  else if 1/2 < fr then fl + 1
  else if fl % 2 = 0 then fl else fl + 1

/-- Floor of the base-2 logarithm of n / (fuel-based structural recursion so
that the kernel can evaluate it; fuel n is enough since log2 n is at most n). -/
def natLog2Aux : Nat → Nat → Nat
  | 0, _ => 0
  | fuel + 1, n => if n ≤ 1 then 0 else natLog2Aux fuel (n / 2) + 1

/-- Floor of log2 n, 0 at 0. -/
def natLog2 (n : Nat) : Nat := natLog2Aux n n

/-- Floor of the base-2 logarithm of a positive rational: the unique e with
2 ^ e ≤ q < 2 ^ (e + 1). -/
def ratLog2 (q : ℚ) : Int :=
  let a : Nat := q.num.toNat
  let b : Nat := q.den
  if b ≤ a then (natLog2 (a / b) : Int)
  else
    let f : Nat := natLog2 (b / a)
    if a * 2 ^ f = b then -(f : Int) else -(f : Int) - 1

/-- Round a positive rational to the nearest IEEE-754 double (53-bit
significand, ties to even), returned as the exact rational it denotes. -/
def roundPosD (q : ℚ) : ℚ :=
  let e : Int := ratLog2 q
  let scale : ℚ := 2 ^ (e - 52)
  (rne (q / scale) : ℚ) * scale

/-- Round any rational to the nearest double value. -/
def roundD (q : ℚ) : ℚ :=
  if q = 0 then 0 else if q < 0 then - roundPosD (-q) else roundPosD q

/-- Python float multiplication (correctly rounded). -/
def mulD (a b : ℚ) : ℚ := roundD (a * b)

/-- Python float division (correctly rounded). -/
def divD (a b : ℚ) : ℚ := roundD (a / b)

/-- Python float subtraction (correctly rounded). -/
def subD (a b : ℚ) : ℚ := roundD (a - b)

/-- Conversion of a Python int to a float, as in int * float arithmetic. -/
def intToD (n : Int) : ℚ := roundD (n : ℚ)

/-- Python int(x) on a float: truncation toward zero. -/
def pyTrunc (q : ℚ) : Int := if q < 0 then -(⌊-q⌋) else ⌊q⌋

/-- The Duration Budgeter inside generate_script: with words_per_minute = 150,
pause_seconds_per_line = 1.0 and estimated_lines = target_duration * 8, it
computes int((target_duration - (estimated_lines * 1.0) / 60.0) * 150) in
Python float arithmetic. -/
def target_word_count (target_duration : Int) : Int :=
  let pause_seconds_per_line : ℚ := intToD 1
  let estimated_lines : Int := target_duration * 8
  let pause_time_minutes : ℚ :=
    divD (mulD (intToD estimated_lines) pause_seconds_per_line) (intToD 60)
  let effective_speech_minutes : ℚ := subD (intToD target_duration) pause_time_minutes
  pyTrunc (mulD effective_speech_minutes (intToD 150))

/-! ### Articles and the Article Deduplicator (news.py lines 111-156) -/

/-- A raw article record from the News Source; each field defaults to the
empty string, mirroring article.get(key, two quotes) on the Python dict. -/
structure Article where
  title : String := ""
  url : String := ""
  description : String := ""
  content : String := ""
  sourceName : String := ""
  publishedAt : String := ""
deriving DecidableEq

/-- The word set of a title, as set(title.split()) built by Python. -/
def wordFinset (s : String) : Finset String := (splitWords s).toFinset

/-- news.py _titles_similar: Jaccard similarity of the word sets, with empty
word sets never matching; the 0.8 threshold and the similarity are modelled
in exact rational arithmetic. -/
def _titles_similar (title1 title2 : String) (threshold : ℚ := 8/10) : Bool :=
  let words1 := wordFinset title1
  let words2 := wordFinset title2
  if words1 = ∅ ∨ words2 = ∅ then false
  else
    let intersection : Nat := (words1 ∩ words2).card
    let union : Nat := (words1 ∪ words2).card
    let similarity : ℚ := if 0 < union then (intersection : ℚ) / (union : ℚ) else 0
    decide (threshold ≤ similarity)

/-- Title normalization in deduplicate_articles: lower-case, keep only ASCII
letters, digits and whitespace, collapse whitespace runs to single blanks. -/
def normalize_title (t : String) : String :=
  let lowered := String.mk (t.data.map Char.toLower)
  let cleaned := String.mk (lowered.data.filter fun c =>
    (('a' ≤ c ∧ c ≤ 'z') ∨ ('0' ≤ c ∧ c ≤ '9') ∨ isPySpace c : Bool))
  String.intercalate " " (splitWords cleaned)

/-- The loop body of deduplicate_articles: walk the articles carrying the
seen URL set and seen normalized-title set (membership-only, so lists). -/
def dedupGo : List Article → List String → List String → List Article
  | [], _, _ => []
  | a :: rest, urls, titles =>
    if a.title = "" ∨ a.url = "" then dedupGo rest urls titles
    else
      let nt := normalize_title a.title
      if a.url ∈ urls then dedupGo rest urls titles
      else if titles.any fun seen => _titles_similar nt seen then dedupGo rest urls titles
      else a :: dedupGo rest (a.url :: urls) (nt :: titles)

/-- news.py deduplicate_articles. -/
def deduplicate_articles (articles : List Article) : List Article :=
  dedupGo articles [] []

/-- Characterization of article lists that the dedup loop passes through
unchanged when started from a given seen-state: every article carries a
nonempty title and URL, a URL not seen before it, and a normalized title
similar to no title seen before it. -/
inductive GoodFrom : List String → List String → List Article → Prop
  | nil {urls titles} : GoodFrom urls titles []
  | cons {urls titles a rest} :
      a.title ≠ "" → a.url ≠ "" → a.url ∉ urls →
      (titles.any fun seen => _titles_similar (normalize_title a.title) seen) = false →
      GoodFrom (a.url :: urls) (normalize_title a.title :: titles) rest →
      GoodFrom urls titles (a :: rest)

/-- A good-from list is a fixed point of the dedup loop at that state. -/
theorem dedupGo_of_goodFrom {urls titles l} (h : GoodFrom urls titles l) :
    dedupGo l urls titles = l := by
  induction h with
  | nil => rfl
  | cons ht hu hmem hsim _ ih =>
    simp only [dedupGo, ht, hu, or_self, if_false, hmem, hsim]
    simp [ih]

/-- The dedup loop's output is good from the state it started at. -/
theorem goodFrom_dedupGo : ∀ (l : List Article) (urls titles : List String),
    GoodFrom urls titles (dedupGo l urls titles)
  | [], _, _ => by simpa [dedupGo] using GoodFrom.nil
  | a :: rest, urls, titles => by
    by_cases h1 : a.title = "" ∨ a.url = ""
    · simpa only [dedupGo, if_pos h1] using goodFrom_dedupGo rest urls titles
    · push_neg at h1
      by_cases h2 : a.url ∈ urls
      · simp only [dedupGo, h1.1, h1.2, or_self, if_false, if_pos h2]
        exact goodFrom_dedupGo rest urls titles
      · by_cases h3 : (titles.any fun seen =>
            _titles_similar (normalize_title a.title) seen) = true
        · simp only [dedupGo, h1.1, h1.2, or_self, if_false, if_neg h2, if_pos h3]
          exact goodFrom_dedupGo rest urls titles
        · simp only [dedupGo, h1.1, h1.2, or_self, if_false, if_neg h2, if_neg h3]
          exact GoodFrom.cons h1.1 h1.2 h2 (by simpa using h3)
            (goodFrom_dedupGo rest (a.url :: urls) (normalize_title a.title :: titles))

/-- The dedup loop only ever drops articles, in place. -/
theorem dedupGo_sublist : ∀ (l : List Article) (urls titles : List String),
    (dedupGo l urls titles).Sublist l
  | [], _, _ => by simp [dedupGo]
  | a :: rest, urls, titles => by
    by_cases h1 : a.title = "" ∨ a.url = ""
    · simpa only [dedupGo, if_pos h1] using (dedupGo_sublist rest urls titles).cons a
    · push_neg at h1
      by_cases h2 : a.url ∈ urls
      · simp only [dedupGo, h1.1, h1.2, or_self, if_false, if_pos h2]
        exact (dedupGo_sublist rest urls titles).cons a
      · by_cases h3 : (titles.any fun seen =>
            _titles_similar (normalize_title a.title) seen) = true
        · simp only [dedupGo, h1.1, h1.2, or_self, if_false, if_neg h2, if_pos h3]
          exact (dedupGo_sublist rest urls titles).cons a
        · simp only [dedupGo, h1.1, h1.2, or_self, if_false, if_neg h2, if_neg h3]
          exact (dedupGo_sublist rest (a.url :: urls)
            (normalize_title a.title :: titles)).cons₂ a

/-- C4: deduplicate_articles is idempotent, and its output is an
order-preserving subsequence of its input. -/
theorem c4_dedup_idempotent_and_sublist :
    (∀ xs : List Article,
      deduplicate_articles (deduplicate_articles xs) = deduplicate_articles xs) ∧
    (∀ xs : List Article, (deduplicate_articles xs).Sublist xs) := by
  constructor
  · intro xs
    exact dedupGo_of_goodFrom (goodFrom_dedupGo xs [] [])
  · intro xs
    exact dedupGo_sublist xs [] []

/-- Title with words w1 up to w100, for the 0.79 Jaccard boundary check. -/
def titleHundredWords : String :=
  "w1 w2 w3 w4 w5 w6 w7 w8 w9 w10 w11 w12 w13 w14 w15 w16 w17 w18 w19 w20 w21 w22 w23 w24 w25 w26 w27 w28 w29 w30 w31 w32 w33 w34 w35 w36 w37 w38 w39 w40 w41 w42 w43 w44 w45 w46 w47 w48 w49 w50 w51 w52 w53 w54 w55 w56 w57 w58 w59 w60 w61 w62 w63 w64 w65 w66 w67 w68 w69 w70 w71 w72 w73 w74 w75 w76 w77 w78 w79 w80 w81 w82 w83 w84 w85 w86 w87 w88 w89 w90 w91 w92 w93 w94 w95 w96 w97 w98 w99 w100"

/-- Title with words w1 up to w79, a subset of titleHundredWords giving
Jaccard similarity exactly 79/100. -/
def titleSeventyNineWords : String :=
  "w1 w2 w3 w4 w5 w6 w7 w8 w9 w10 w11 w12 w13 w14 w15 w16 w17 w18 w19 w20 w21 w22 w23 w24 w25 w26 w27 w28 w29 w30 w31 w32 w33 w34 w35 w36 w37 w38 w39 w40 w41 w42 w43 w44 w45 w46 w47 w48 w49 w50 w51 w52 w53 w54 w55 w56 w57 w58 w59 w60 w61 w62 w63 w64 w65 w66 w67 w68 w69 w70 w71 w72 w73 w74 w75 w76 w77 w78 w79"

set_option maxRecDepth 100000 in
/-- C5: _titles_similar classifies two titles as duplicates exactly when both
word sets are nonempty and the Jaccard similarity (intersection size over
union size) is at least 0.8; a concrete pair at similarity exactly 79/100
(word sets of sizes 100 and 79 sharing 79 words) is not a match, while a
concrete pair at exactly 0.8 (sizes 5 and 4 sharing 4 words) is a match. -/
theorem c5_titles_similar_jaccard_threshold :
    (∀ t1 t2 : String, _titles_similar t1 t2 = true ↔
        (wordFinset t1).Nonempty ∧ (wordFinset t2).Nonempty ∧
        (4/5 : ℚ) ≤ ((wordFinset t1 ∩ wordFinset t2).card : ℚ) /
          ((wordFinset t1 ∪ wordFinset t2).card : ℚ)) ∧
    ((wordFinset titleHundredWords ∩ wordFinset titleSeventyNineWords).card : ℚ) /
        ((wordFinset titleHundredWords ∪ wordFinset titleSeventyNineWords).card : ℚ)
      = 79/100 ∧
    _titles_similar titleHundredWords titleSeventyNineWords = false ∧
    _titles_similar ("alpha beta gamma delta epsilon") ("alpha beta gamma delta") = true := by
  have key : ∀ t1 t2 : String, _titles_similar t1 t2 = true ↔
      (wordFinset t1).Nonempty ∧ (wordFinset t2).Nonempty ∧
      (4/5 : ℚ) ≤ ((wordFinset t1 ∩ wordFinset t2).card : ℚ) /
        ((wordFinset t1 ∪ wordFinset t2).card : ℚ) := by
    intro t1 t2
    by_cases h1 : wordFinset t1 = ∅
    · simp [_titles_similar, h1, Finset.nonempty_iff_ne_empty]
    · by_cases h2 : wordFinset t2 = ∅
      · simp [_titles_similar, h1, h2, Finset.nonempty_iff_ne_empty]
      · have hu : 0 < (wordFinset t1 ∪ wordFinset t2).card := by
          refine Finset.card_pos.mpr ?_
          exact (Finset.nonempty_iff_ne_empty.mpr h1).mono Finset.subset_union_left
        simp only [_titles_similar, h1, h2, or_self, if_false, Finset.nonempty_iff_ne_empty,
          hu, if_pos, decide_eq_true_eq, or_false, false_or, if_true]
        constructor
        · intro h
          exact ⟨h1, h2, by linarith⟩
        · rintro ⟨-, -, h⟩
          linarith
  refine ⟨key, ?_, ?_, ?_⟩
  · have hi : (wordFinset titleHundredWords ∩ wordFinset titleSeventyNineWords).card = 79 := by
      with_unfolding_all decide
    have hu : (wordFinset titleHundredWords ∪ wordFinset titleSeventyNineWords).card = 100 := by
      with_unfolding_all decide
    rw [hi, hu]
    norm_num
  · with_unfolding_all decide
  · with_unfolding_all decide

set_option maxRecDepth 40000 in
/-- C1 rework: the Duration Budgeter evaluates the formula in binary floating
point. At target_duration 5 this gives 650, agreeing with the exact value
floor((5 - 40/60) x 150) = 130 x 5; for every positive duration the exact
formula equals 130 x d, but the float evaluation can land one below it, as
at duration 13 where the code computes 1689 while the exact floor is 1690. -/
theorem c1_target_word_count_eval :
    target_word_count 5 = 650 ∧ target_word_count 13 = 1689 ∧
    ∀ d : Int, 0 < d →
      Int.floor ((((d : Int) : ℚ) - (((d : Int) : ℚ) * 8 * 1) / 60) * 150) = 130 * d := by
  refine ⟨?_, ?_, ?_⟩
  · with_unfolding_all decide
  · with_unfolding_all decide
  · intro d _
    have h : (((d : Int) : ℚ) - (((d : Int) : ℚ) * 8 * 1) / 60) * 150
        = ((130 * d : Int) : ℚ) := by push_cast; ring
    rw [h, Int.floor_intCast]

/-- Witness for c1_target_word_count_eval at duration 5. -/
theorem c1_target_word_count_eval_witness :
    (0 : Int) < 5 ∧
      Int.floor ((((5 : Int) : ℚ) - (((5 : Int) : ℚ) * 8 * 1) / 60) * 150) = 130 * 5 :=
  ⟨by decide, c1_target_word_count_eval.2.2 5 (by decide)⟩

set_option maxRecDepth 40000 in
/-- C1 counterexample: at target_duration 13 the code computes 1689, while
floor of the exact formula is 1690, so the Budgeter does not compute the
exact floor for every positive duration. -/
theorem c1_counterexample_duration_13 :
    target_word_count 13 = 1689 ∧
    Int.floor ((((13 : Int) : ℚ) - (((13 : Int) : ℚ) * 8 * 1) / 60) * 150) = 1690 ∧
    (1689 : Int) ≠ 1690 := by
  refine ⟨?_, ?_, by decide⟩
  · with_unfolding_all decide
  · norm_num

/-! ### Stories, personas and the script data model -/

/-- A normalized story record as built by fetch_news. -/
structure Story where
  id : Int := 0
  title : String := ""
  url : String := ""
  sourceName : String := ""
  summary : String := ""
  publishedAt : String := ""
deriving DecidableEq

/-- A host persona from the personas config. -/
structure Persona where
  name : String := ""
  personality : String := ""
  style : String := ""
deriving DecidableEq

/-- A rundown entry of the candidate script; both keys may be absent. -/
structure RundownEntry where
  segment : Option String := none
  duration_estimate : Option Int := none
deriving DecidableEq

/-- A dialogue line of the candidate script; every key may be absent. -/
structure DialogueLine where
  speaker : Option String := none
  text : Option String := none
  segment : Option String := none
  sources : Option (List Int) := none
deriving DecidableEq

/-- The top-level candidate script object; the required keys may be absent. -/
structure ScriptData where
  rundown : Option (List RundownEntry) := none
  dialogue : Option (List DialogueLine) := none
  disclaimer : Option String := none
deriving DecidableEq

/-! ### The Script Validator (script_generator.py lines 291-338) -/

/-- Matcher for the citation-marker regex at the head of the input: an open
bracket, the letters src and a colon, optional whitespace, one or more
digits, then a closing bracket; returns the remainder after the match. -/
def matchSrcMarker : List Char → Option (List Char)
  | '[' :: 's' :: 'r' :: 'c' :: ':' :: rest =>
    let afterSpaces := rest.dropWhile isPySpace
    let digits := afterSpaces.takeWhile Char.isDigit
    let afterDigits := afterSpaces.dropWhile Char.isDigit
    if digits = [] then none
    else
      match afterDigits with
      | ']' :: r => some r
      | _ => none
  | _ => none

/-- Fuel-based scanner deleting every citation marker, as re.sub with the
src pattern and an empty replacement; fuel bounds the steps (one unit per
character consumed, so the input length is always enough). -/
def stripSrcAux : Nat → List Char → List Char
  | 0, l => l
  | _ + 1, [] => []
  | fuel + 1, c :: rest =>
    match matchSrcMarker (c :: rest) with
    | some r => stripSrcAux fuel r
    | none => c :: stripSrcAux fuel rest

/-- Delete every citation marker of the form open-bracket src colon
whitespace digits close-bracket from the text. -/
def stripSrcMarkers (l : List Char) : List Char := stripSrcAux l.length l

/-- Word contribution of one dialogue line in the validator: words of the
text after citation markers are removed. -/
def lineWordCount (line : DialogueLine) : Nat :=
  countWords (stripSrcMarkers ((line.text.getD ("")).data))

/-- Total word count over all dialogue lines. -/
def totalWords (dialogue : List DialogueLine) : Nat :=
  (dialogue.map lineWordCount).sum

/-- Substring test, as the Python in operator on strings. -/
def containsSub (hay pat : List Char) : Bool :=
  hay.tails.any fun t => pat.isPrefixOf t

/-- The non-fatal findings the validator prints instead of raising. -/
inductive Warning
  | tooShort
  | tooLong
  | fewLinesPerStory
  | notConversational
  | missingCitations
deriving DecidableEq

/-- Outcome of _validate_script: the raised error if any, and the warnings
printed before it. -/
structure ValidationResult where
  fatal : Option String := none
  warnings : List Warning := []
deriving DecidableEq

/-- The per-line required-field check, with its error message. -/
def lineFieldError (idx : Nat) (line : DialogueLine) : Option String :=
  if line.speaker = none then
    some ("Dialogue line " ++ toString idx ++ " missing 'speaker'")
  else if line.text = none then
    some ("Dialogue line " ++ toString idx ++ " missing 'text'")
  else if line.segment = none then
    some ("Dialogue line " ++ toString idx ++ " missing 'segment'")
  else if line.sources = none then
    some ("Dialogue line " ++ toString idx ++ " missing 'sources'")
  else none

/-- First per-line required-field error in index order, if any. -/
def firstLineError : Nat → List DialogueLine → Option String
  | _, [] => none
  | idx, line :: rest =>
    match lineFieldError idx line with
    | some m => some m
    | none => firstLineError (idx + 1) rest

/-- The dialogue texts joined with single blanks, as the join before the
citation-annotation check. -/
def joinedDialogueText (dialogue : List DialogueLine) : List Char :=
  (String.intercalate (" ") (dialogue.map fun l => l.text.getD (""))).data

/-- script_generator.py _validate_script. Fatal checks run in source order:
missing rundown, missing dialogue, missing cold_open, missing kicker, then
(after the printed warnings) the per-line field check. The word-count check
runs only for a truthy target (not None and nonzero) and compares the
total-to-target ratio against 0.7 and 1.3 in exact rational arithmetic; the
citation warning is only reached when no per-line check raised first. -/
def _validate_script (s : ScriptData) (stories : List Story)
    (target_word_count : Option Int) : ValidationResult :=
  match s.rundown with
  | none => ⟨some ("Script missing 'rundown' key"), []⟩
  | some rundown =>
    match s.dialogue with
    | none => ⟨some ("Script missing 'dialogue' key"), []⟩
    | some dialogue =>
      let segments := rundown.map fun e => e.segment.getD ("")
      if ("cold_open" : String) ∉ segments then
        ⟨some ("Script missing cold_open segment"), []⟩
      else if ("kicker" : String) ∉ segments then
        ⟨some ("Script missing kicker segment"), []⟩
      else
        let total := totalWords dialogue
        let wcWarns : List Warning :=
          match target_word_count with
          | none => []
          | some t =>
            if t = 0 then []
            else
              let word_count_rat : ℚ := (total : ℚ) / (t : ℚ)
              if word_count_rat < 7/10 then [Warning.tooShort]
              else if 13/10 < word_count_rat then [Warning.tooLong]
              else []
        let min_expected := stories.length * 15
        let lineWarns : List Warning :=
          if dialogue.length < min_expected then [Warning.fewLinesPerStory]
          else if dialogue.length < 20 then [Warning.notConversational]
          else []
        let fatalLine := firstLineError 0 dialogue
        let citeWarns : List Warning :=
          if fatalLine = none ∧
              ¬ containsSub (joinedDialogueText dialogue) (("[src:").data) ∧
              ¬ containsSub (joinedDialogueText dialogue) (("[src: ").data) then
            [Warning.missingCitations]
          else []
        ⟨fatalLine, wcWarns ++ lineWarns ++ citeWarns⟩

/-- Full characterization of the validator when rundown and dialogue are
present and both required segments occur: the fatal slot is the first
per-line field error, and the warnings are the word-count band, the
line-count band, then the citation check. -/
theorem validate_script_full (rd : List RundownEntry) (dl : List DialogueLine)
    (disc : Option String) (stories : List Story) (target : Option Int)
    (hc : ("cold_open" : String) ∈ rd.map fun e => e.segment.getD (""))
    (hk : ("kicker" : String) ∈ rd.map fun e => e.segment.getD ("")) :
    _validate_script ⟨some rd, some dl, disc⟩ stories target =
      ⟨firstLineError 0 dl,
        (match target with
          | none => []
          | some t =>
            if t = 0 then []
            else
              if (totalWords dl : ℚ) / (t : ℚ) < 7/10 then [Warning.tooShort]
              else if 13/10 < (totalWords dl : ℚ) / (t : ℚ) then [Warning.tooLong]
              else []) ++
        (if dl.length < stories.length * 15 then [Warning.fewLinesPerStory]
          else if dl.length < 20 then [Warning.notConversational]
          else []) ++
        (if firstLineError 0 dl = none ∧
            ¬ containsSub (joinedDialogueText dl) (("[src:").data) ∧
            ¬ containsSub (joinedDialogueText dl) (("[src: ").data) then
          [Warning.missingCitations]
        else [])⟩ := by
  simp only [_validate_script]
  rw [if_neg (not_not_intro hc), if_neg (not_not_intro hk)]

/-- Membership of a word-count warning in the validator warning list is
decided by the word-count band alone: the line-count and citation bands
never contain the word-count warnings. -/
theorem warning_mem_bands (w : Warning) (wc : List Warning)
    (c1 c2 c3 : Prop) [Decidable c1] [Decidable c2] [Decidable c3]
    (hw1 : w ≠ Warning.fewLinesPerStory) (hw2 : w ≠ Warning.notConversational)
    (hw3 : w ≠ Warning.missingCitations) :
    (w ∈ wc ++
      (if c1 then [Warning.fewLinesPerStory]
        else if c2 then [Warning.notConversational] else []) ++
      (if c3 then [Warning.missingCitations] else [])) ↔ w ∈ wc := by
  split_ifs <;> simp [hw1, hw2, hw3]

/-- C2 rework: with a positive target, the too-short warning is printed
exactly when total divided by target is below 0.7 and the too-long warning
exactly when it is above 1.3; the target never influences whether the
validator raises; and the worked line with one citation marker contributes
exactly 3 words (not 4 as the spec counts). -/
theorem c2_word_count_banding :
    (∀ (rd : List RundownEntry) (dl : List DialogueLine) (disc : Option String)
        (stories : List Story) (t : Int),
      ("cold_open" : String) ∈ rd.map (fun e => e.segment.getD ("")) →
      ("kicker" : String) ∈ rd.map (fun e => e.segment.getD ("")) →
      0 < t →
      (Warning.tooShort ∈
          (_validate_script ⟨some rd, some dl, disc⟩ stories (some t)).warnings ↔
        (totalWords dl : ℚ) / (t : ℚ) < 7/10) ∧
      (Warning.tooLong ∈
          (_validate_script ⟨some rd, some dl, disc⟩ stories (some t)).warnings ↔
        13/10 < (totalWords dl : ℚ) / (t : ℚ)) ∧
      (_validate_script ⟨some rd, some dl, disc⟩ stories (some t)).fatal =
        (_validate_script ⟨some rd, some dl, disc⟩ stories none).fatal) ∧
    lineWordCount
        ⟨some ("Ray"), some ("Rates rose [src: 2] again."), some ("story_0"), some [2]⟩
      = 3 := by
  constructor
  · intro rd dl disc stories t hc hk ht
    have ht0 : ¬ (t = 0) := by omega
    rw [validate_script_full rd dl disc stories (some t) hc hk,
      validate_script_full rd dl disc stories none hc hk]
    refine ⟨?_, ?_, rfl⟩
    · simp only [ht0, if_false]
      rw [warning_mem_bands _ _ _ _ _ (by decide) (by decide) (by decide)]
      split_ifs with h1 h2 <;> simp [h1]
    · simp only [ht0, if_false]
      rw [warning_mem_bands _ _ _ _ _ (by decide) (by decide) (by decide)]
      split_ifs with h1 h2
      · have hnl : ¬ ((13 : ℚ)/10 < (totalWords dl : ℚ) / (t : ℚ)) := by linarith
        simp [hnl]
      · simp [h2]
      · simp [h2]
  · decide

/-- Witness for c2_word_count_banding: two required segments, six one-word
lines against target 10 (ratio 0.6), so the too-short warning fires. -/
theorem c2_word_count_banding_witness :
    (("cold_open" : String) ∈
        ([⟨some ("cold_open"), none⟩, ⟨some ("kicker"), none⟩] :
          List RundownEntry).map (fun e => e.segment.getD (""))) ∧
    (("kicker" : String) ∈
        ([⟨some ("cold_open"), none⟩, ⟨some ("kicker"), none⟩] :
          List RundownEntry).map (fun e => e.segment.getD (""))) ∧
    (0 : Int) < 10 ∧
    (Warning.tooShort ∈
        (_validate_script
          ⟨some [⟨some ("cold_open"), none⟩, ⟨some ("kicker"), none⟩],
            some (List.replicate 6
              ⟨some ("Ray"), some ("word"), some ("cold_open"), some []⟩),
            none⟩ [] (some 10)).warnings ↔
      (totalWords (List.replicate 6
          ⟨some ("Ray"), some ("word"), some ("cold_open"), some []⟩) : ℚ) / (10 : ℚ)
        < 7/10) :=
  ⟨by decide, by decide, by decide,
    (c2_word_count_banding.1
      [⟨some ("cold_open"), none⟩, ⟨some ("kicker"), none⟩]
      (List.replicate 6 ⟨some ("Ray"), some ("word"), some ("cold_open"), some []⟩)
      none [] 10 (by decide) (by decide) (by decide)).1⟩

/-- C2 counterexample: the spec counts the worked line as 4 words, but after
stripping the citation marker the text has exactly 3 whitespace-separated
words. -/
theorem c2_counterexample_worked_line :
    lineWordCount
        ⟨some ("Ray"), some ("Rates rose [src: 2] again."), some ("story_0"), some [2]⟩
      = 3 ∧ (3 : Nat) ≠ 4 := ⟨by decide, by decide⟩

/-- C3 rework: a script carrying a rundown key but no dialogue key always
fails with the message naming dialogue, regardless of every other defect;
when the rundown key is absent as well, the earlier rundown check fires
instead. -/
theorem c3_missing_dialogue_message :
    (∀ (rd : List RundownEntry) (disc : Option String) (stories : List Story)
        (target : Option Int),
      _validate_script ⟨some rd, none, disc⟩ stories target
        = ⟨some ("Script missing 'dialogue' key"), []⟩) ∧
    containsSub (("Script missing 'dialogue' key").data) (("dialogue").data) = true :=
  ⟨fun _ _ _ _ => rfl, by decide⟩

/-- C3 counterexample: a script missing both keys fails with the rundown
message, which does not name dialogue. -/
theorem c3_counterexample_rundown_first :
    _validate_script ⟨none, none, none⟩ [] none
      = ⟨some ("Script missing 'rundown' key"), []⟩ ∧
    containsSub (("Script missing 'rundown' key").data) (("dialogue").data) = false :=
  ⟨rfl, by decide⟩

/-- C7 rework: a supplied target of exactly 0 disables the word-count check
(no band warning is printed), and the target never influences whether the
validator raises; but a strictly negative supplied target is truthy in
Python and always lands in the too-short branch, since the ratio is then
nonpositive. -/
theorem c7_degenerate_target :
    (∀ (s : ScriptData) (stories : List Story),
      Warning.tooShort ∉ (_validate_script s stories (some 0)).warnings ∧
      Warning.tooLong ∉ (_validate_script s stories (some 0)).warnings) ∧
    (∀ (s : ScriptData) (stories : List Story) (t1 t2 : Option Int),
      (_validate_script s stories t1).fatal = (_validate_script s stories t2).fatal) ∧
    (∀ (rd : List RundownEntry) (dl : List DialogueLine) (disc : Option String)
        (stories : List Story) (t : Int), t < 0 →
      ("cold_open" : String) ∈ rd.map (fun e => e.segment.getD ("")) →
      ("kicker" : String) ∈ rd.map (fun e => e.segment.getD ("")) →
      Warning.tooShort ∈
        (_validate_script ⟨some rd, some dl, disc⟩ stories (some t)).warnings) := by
  refine ⟨?_, ?_, ?_⟩
  · intro s stories
    obtain ⟨rd, dl, disc⟩ := s
    cases rd with
    | none => simp [_validate_script]
    | some rd =>
      cases dl with
      | none => simp [_validate_script]
      | some dl =>
        by_cases hc : ("cold_open" : String) ∈ rd.map (fun e => e.segment.getD (""))
        · by_cases hk : ("kicker" : String) ∈ rd.map (fun e => e.segment.getD (""))
          · rw [validate_script_full rd dl disc stories (some 0) hc hk]
            constructor <;>
              · simp only [if_pos rfl, List.nil_append]
                split_ifs <;> simp
          · simp only [_validate_script]
            rw [if_neg (not_not_intro hc), if_pos hk]
            simp
        · simp only [_validate_script]
          rw [if_pos hc]
          simp
  · intro s stories t1 t2
    obtain ⟨rd, dl, disc⟩ := s
    cases rd with
    | none => rfl
    | some rd =>
      cases dl with
      | none => rfl
      | some dl =>
        by_cases hc : ("cold_open" : String) ∈ rd.map (fun e => e.segment.getD (""))
        · by_cases hk : ("kicker" : String) ∈ rd.map (fun e => e.segment.getD (""))
          · rw [validate_script_full rd dl disc stories t1 hc hk,
              validate_script_full rd dl disc stories t2 hc hk]
          · simp only [_validate_script]
            rw [if_neg (not_not_intro hc), if_pos hk, if_neg (not_not_intro hc), if_pos hk]
        · simp only [_validate_script]
          rw [if_pos hc, if_pos hc]
  · intro rd dl disc stories t ht hc hk
    have ht0 : ¬ (t = 0) := by omega
    have htQ : ((t : Int) : ℚ) < 0 := by exact_mod_cast ht
    have hr : (totalWords dl : ℚ) / (t : ℚ) ≤ 0 := by
      apply div_nonpos_of_nonneg_of_nonpos
      · positivity
      · exact le_of_lt htQ
    rw [validate_script_full rd dl disc stories (some t) hc hk]
    simp only [ht0, if_false]
    rw [if_pos (by linarith : (totalWords dl : ℚ) / (t : ℚ) < 7/10)]
    simp

/-- Witness for c7_degenerate_target: a structurally sound one-line script
with target -5 gets the too-short warning. -/
theorem c7_degenerate_target_witness :
    ((-5 : Int) < 0) ∧
    (("cold_open" : String) ∈
        ([⟨some ("cold_open"), none⟩, ⟨some ("kicker"), none⟩] :
          List RundownEntry).map (fun e => e.segment.getD (""))) ∧
    (("kicker" : String) ∈
        ([⟨some ("cold_open"), none⟩, ⟨some ("kicker"), none⟩] :
          List RundownEntry).map (fun e => e.segment.getD (""))) ∧
    Warning.tooShort ∈
      (_validate_script
        ⟨some [⟨some ("cold_open"), none⟩, ⟨some ("kicker"), none⟩],
          some [⟨some ("Sam"), some ("just a few words"), some ("kicker"), some []⟩],
          none⟩ [] (some (-5))).warnings :=
  ⟨by decide, by decide, by decide,
    c7_degenerate_target.2.2
      [⟨some ("cold_open"), none⟩, ⟨some ("kicker"), none⟩]
      [⟨some ("Sam"), some ("just a few words"), some ("kicker"), some []⟩]
      none [] (-5) (by decide) (by decide) (by decide)⟩

set_option maxRecDepth 40000 in
/-- C7 counterexample: with the negative supplied target -100 the validator
does print the too-short word-count warning, so a nonpositive target is not
treated as no-minimum-enforced. -/
theorem c7_counterexample_negative_target :
    Warning.tooShort ∈
      (_validate_script
        ⟨some [⟨some ("cold_open"), none⟩, ⟨some ("kicker"), none⟩],
          some [⟨some ("Alex"), some ("hello world"), some ("cold_open"), some []⟩],
          none⟩ [] (some (-100))).warnings := by
  with_unfolding_all decide

/-! ### The Response Parser fence-stripping step and generate_script
(script_generator.py lines 11-68) -/

/-- The three-backtick code-fence marker (a backtick is character 96). -/
def fenceMarker : List Char := [Char.ofNat 96, Char.ofNat 96, Char.ofNat 96]

/-- Python str.find for one character, walking from index i: first index of
the character, or -1 when absent. -/
def findCharFrom (c : Char) : List Char → Nat → Int
  | [], _ => -1
  | x :: rest, i => if x = c then (i : Int) else findCharFrom c rest (i + 1)

/-- Python str.find for one character. -/
def pyFindChar (c : Char) (l : List Char) : Int := findCharFrom c l 0

/-- Python str.rfind: the greatest start index at which the pattern occurs,
tracked while walking the string, or -1 when it never occurs. -/
def rfindFrom (pat : List Char) : List Char → Nat → Int → Int
  | [], _, best => best
  | x :: rest, i, best =>
    rfindFrom pat rest (i + 1) (if pat.isPrefixOf (x :: rest) then (i : Int) else best)

/-- Python str.rfind. -/
def pyRFind (pat l : List Char) : Int := rfindFrom pat l 0 (-1)

/-- The Response Parser fence-stripping step: strip the reply; when the
stripped reply begins with the fence marker, find the first newline and the
last fence occurrence, and when the newline index is positive and the last
fence lies beyond it, keep only the stripped text strictly between them. -/
def extractPayload (raw : List Char) : List Char :=
  let s := pyStrip raw
  if fenceMarker.isPrefixOf s then
    let first_newline := pyFindChar '\n' s
    let last_fence := pyRFind fenceMarker s
    if 0 < first_newline ∧ first_newline < last_fence then
      pyStrip ((s.drop (first_newline.toNat + 1)).take
        (last_fence.toNat - first_newline.toNat - 1))
    else s
  else s

/-- The Python exception classes this core raises. -/
inductive PyExc
  | scriptGenerationError (msg : String)
  | newsAPIError (msg : String)
deriving DecidableEq

/-- The exception class name, which is all a caller can catch on. -/
def excClass : PyExc → String
  | .scriptGenerationError _ => "ScriptGenerationError"
  | .newsAPIError _ => "NewsAPIError"

/-- The class of the raised exception, if the computation raised. -/
def errClassOf : Except PyExc ScriptData → Option String
  | .error e => some (excClass e)
  | .ok _ => none

/-- The raised exception itself, if the computation raised. -/
def resultExc : Except PyExc ScriptData → Option PyExc
  | .error e => some e
  | .ok _ => none

/-- The input check on personas: Python requires the hosts entry to be
truthy (present and nonempty) with length at least 2. -/
def hostsOk (hosts : Option (List Persona)) : Bool :=
  match hosts with
  | none => false
  | some l => decide (2 ≤ l.length)

/-- script_generator.py generate_script over its collaborators: call is the
Dialogue Model invocation (exception message or raw reply) and decode stands
for json.loads on the fence-stripped text. Input checks run before any
collaborator is consulted. Inside the try block the JSON decode error is
caught first with the parse-error prefix; every other exception, including
the empty-reply and validation ScriptGenerationErrors raised inside the
block, is caught by the generic handler and re-wrapped with the
unexpected-error prefix. -/
def generate_script (stories : List Story) (hosts : Option (List Persona))
    (target_duration : Int) (call : Except String String)
    (decode : List Char → Except String ScriptData) : Except PyExc ScriptData :=
  if stories = [] then
    .error (.scriptGenerationError ("Need at least 1 story to generate script"))
  else if ¬ hostsOk hosts then
    .error (.scriptGenerationError ("Need exactly 2 host personas"))
  else
    match call with
    | .error e =>
      .error (.scriptGenerationError
        ("Unexpected error during script generation: " ++ e))
    | .ok reply =>
      if pyStrip reply.data = [] then
        .error (.scriptGenerationError
          ("Unexpected error during script generation: Received empty response from ChatGPT"))
      else
        match decode (extractPayload reply.data) with
        | .error e =>
          .error (.scriptGenerationError ("Failed to parse response as JSON: " ++ e))
        | .ok script_data =>
          match (_validate_script script_data stories
              (some (target_word_count target_duration))).fatal with
          | some m =>
            .error (.scriptGenerationError
              ("Unexpected error during script generation: " ++ m))
          | none => .ok script_data

/-- The outcome of the top-headlines HTTP request: a requests exception, or
a decoded JSON body with its status, articles and optional message. -/
inductive HttpResult
  | exc (msg : String)
  | resp (status : String) (articles : List Article) (message : Option String)

/-- news.py _fetch_top_headlines over the HTTP outcome: request exceptions
and non-ok statuses both surface as NewsAPIError. -/
def _fetch_top_headlines : HttpResult → Except PyExc (List Article)
  | .exc m => .error (.newsAPIError ("Failed to connect to NewsAPI: " ++ m))
  | .resp st arts msg =>
    if st = "ok" then .ok arts
    else .error (.newsAPIError ("NewsAPI error: " ++ msg.getD ("Unknown error")))

/-- A one-field story used as concrete input. -/
def storyOne : Story := { title := "story" }

/-- Two concrete host personas. -/
def twoHosts : List Persona := [{ name := "Alex" }, { name := "Jordan" }]

/-- Three concrete host personas. -/
def threeHosts : List Persona :=
  [{ name := "Alex" }, { name := "Jordan" }, { name := "Casey" }]

/-- C8 rework: generate_script rejects an empty story list, and rejects a
hosts value that is missing, empty or shorter than two, before consulting
any collaborator (the result is the input error whatever call and decode
return); but a hosts list with more than two personas passes the input
check, so lists of three or more are not rejected. -/
theorem c8_fail_fast_input_checks :
    (∀ (hosts : Option (List Persona)) (d : Int) (call : Except String String)
        (decode : List Char → Except String ScriptData),
      generate_script [] hosts d call decode =
        .error (.scriptGenerationError ("Need at least 1 story to generate script"))) ∧
    (∀ (stories : List Story) (hosts : Option (List Persona)) (d : Int)
        (call : Except String String) (decode : List Char → Except String ScriptData),
      stories ≠ [] → hostsOk hosts = false →
      generate_script stories hosts d call decode =
        .error (.scriptGenerationError ("Need exactly 2 host personas"))) ∧
    (∀ hosts : Option (List Persona),
      hostsOk hosts = false ↔ hosts = none ∨ (hosts.getD []).length < 2) := by
  refine ⟨?_, ?_, ?_⟩
  · intro hosts d call decode
    rfl
  · intro stories hosts d call decode hs hh
    simp [generate_script, hs, hh]
  · intro hosts
    cases hosts with
    | none => simp [hostsOk]
    | some l =>
      simp only [hostsOk, decide_eq_false_iff_not, not_le, Option.getD_some,
        reduceCtorEq, false_or]

/-- Witness for c8_fail_fast_input_checks: one story and a single persona
are rejected with the input error, independently of the collaborators. -/
theorem c8_fail_fast_witness :
    ([storyOne] ≠ ([] : List Story)) ∧
    hostsOk (some [{ name := "Alex" }]) = false ∧
    generate_script [storyOne] (some [{ name := "Alex" }]) 5 (.ok ("x"))
        (fun _ => .error ("no parse")) =
      .error (.scriptGenerationError ("Need exactly 2 host personas")) :=
  ⟨by decide, by decide,
    c8_fail_fast_input_checks.2.1 [storyOne] (some [{ name := "Alex" }]) 5 (.ok ("x"))
      (fun _ => .error ("no parse")) (by decide) (by decide)⟩

/-- C8 counterexample: with three host personas no input error is raised
before the Dialogue Model call; the outcome tracks the collaborators (a
failing call surfaces as the wrapped dependency error, a bad reply as the
parse error), and never equals the not-exactly-two input error. -/
theorem c8_counterexample_three_hosts :
    resultExc (generate_script [storyOne] (some threeHosts) 5
        (.error ("Connection error")) (fun _ => .error ("bad"))) =
      some (.scriptGenerationError
        ("Unexpected error during script generation: Connection error")) ∧
    resultExc (generate_script [storyOne] (some threeHosts) 5
        (.ok ("not json")) (fun _ => .error ("bad"))) =
      some (.scriptGenerationError ("Failed to parse response as JSON: bad")) ∧
    (some (PyExc.scriptGenerationError
        ("Unexpected error during script generation: Connection error")) ≠
      some (PyExc.scriptGenerationError ("Need exactly 2 host personas"))) := by
  refine ⟨by decide, by decide, by decide⟩

/-- C9 rework: News Source failures surface as NewsAPIError, a class
distinct from ScriptGenerationError, so they are distinguishable from
script input errors; but Dialogue Model failures are re-raised as
ScriptGenerationError, the same class generate_script uses for its input
errors and parse errors, so within generate_script the caller cannot
tell a dependency failure from bad input by the exception type. -/
theorem c9_error_taxonomy :
    (∀ m : String, _fetch_top_headlines (.exc m) =
      .error (.newsAPIError ("Failed to connect to NewsAPI: " ++ m))) ∧
    (∀ (st : String) (arts : List Article) (msg : Option String), st ≠ "ok" →
      _fetch_top_headlines (.resp st arts msg) =
        .error (.newsAPIError ("NewsAPI error: " ++ msg.getD ("Unknown error")))) ∧
    (∀ m1 m2 : String,
      excClass (.newsAPIError m1) ≠ excClass (.scriptGenerationError m2)) ∧
    (∀ (stories : List Story) (hosts : Option (List Persona)) (d : Int) (e : String)
        (decode : List Char → Except String ScriptData),
      stories ≠ [] → hostsOk hosts = true →
      errClassOf (generate_script stories hosts d (.error e) decode) =
        some ("ScriptGenerationError")) ∧
    (∀ (hosts : Option (List Persona)) (d : Int) (call : Except String String)
        (decode : List Char → Except String ScriptData),
      errClassOf (generate_script [] hosts d call decode) =
        some ("ScriptGenerationError")) := by
  refine ⟨fun m => rfl, ?_, ?_, ?_, ?_⟩
  · intro st arts msg hst
    simp [_fetch_top_headlines, hst]
  · intro m1 m2
    simp [excClass]
  · intro stories hosts d e decode hs hh
    simp [generate_script, errClassOf, hs, hh, excClass]
  · intro hosts d call decode
    rfl

/-- Witness for c9_error_taxonomy: a concrete failing Dialogue Model call
with valid input surfaces as class ScriptGenerationError. -/
theorem c9_error_taxonomy_witness :
    (("error" : String) ≠ "ok") ∧
    ([storyOne] ≠ ([] : List Story)) ∧
    hostsOk (some twoHosts) = true ∧
    errClassOf (generate_script [storyOne] (some twoHosts) 5
        (.error ("Connection error")) (fun _ => .error ("bad"))) =
      some ("ScriptGenerationError") :=
  ⟨by decide, by decide, by decide,
    c9_error_taxonomy.2.2.2.1 [storyOne] (some twoHosts) 5 ("Connection error")
      (fun _ => .error ("bad")) (by decide) (by decide)⟩

/-- C9 counterexample: an input error, a Dialogue Model dependency failure
and a parse failure all surface with the same exception class
ScriptGenerationError, so the class does not separate a dependency failure
from bad input inside generate_script. -/
theorem c9_counterexample_same_class :
    errClassOf (generate_script [] (some twoHosts) 5 (.ok ("x"))
        (fun _ => .error ("bad"))) = some ("ScriptGenerationError") ∧
    errClassOf (generate_script [storyOne] (some twoHosts) 5
        (.error ("Connection error")) (fun _ => .error ("bad"))) =
      some ("ScriptGenerationError") ∧
    errClassOf (generate_script [storyOne] (some twoHosts) 5 (.ok ("not json"))
        (fun _ => .error ("bad"))) = some ("ScriptGenerationError") := by
  refine ⟨by decide, by decide, by decide⟩

/-! ### The Story Selector summary derivation (news.py lines 159-177) -/

/-- Matcher for the truncation-suffix regex at the head of the input: an
open bracket, a plus sign, one or more digits, one or more whitespace
characters, the letters char with an optional s, then a closing bracket;
returns the remainder after the match. -/
def matchChunkMarker : List Char → Option (List Char)
  | '[' :: '+' :: rest =>
    let digits := rest.takeWhile Char.isDigit
    let afterDigits := rest.dropWhile Char.isDigit
    if digits = [] then none
    else
      let spaces := afterDigits.takeWhile isPySpace
      let afterSpaces := afterDigits.dropWhile isPySpace
      if spaces = [] then none
      else
        match afterSpaces with
        | 'c' :: 'h' :: 'a' :: 'r' :: 's' :: ']' :: r => some r
        | 'c' :: 'h' :: 'a' :: 'r' :: ']' :: r => some r
        | _ => none
  | _ => none

/-- Fuel-based scanner deleting every truncation-suffix marker, as re.sub
with an empty replacement. -/
def stripChunkAux : Nat → List Char → List Char
  | 0, l => l
  | _ + 1, [] => []
  | fuel + 1, c :: rest =>
    match matchChunkMarker (c :: rest) with
    | some r => stripChunkAux fuel r
    | none => c :: stripChunkAux fuel rest

/-- Delete every truncation-suffix marker from the text. -/
def stripChunkMarkers (l : List Char) : List Char := stripChunkAux l.length l

/-- Whether an optional character is sentence-ending punctuation. -/
def isTermPunct : Option Char → Bool
  | some c => c = '.' ∨ c = '!' ∨ c = '?'
  | none => false

/-- Sentence splitting as re.split with a lookbehind: cut at each maximal
whitespace run whose preceding character is sentence-ending punctuation.
The Bool records being inside such a run; prev is the previously consumed
character; acc is the current piece reversed. -/
def splitSentAux : List Char → Bool → Option Char → List Char → List (List Char)
  | [], true, _, _ => [[]]
  | [], false, _, acc => [acc.reverse]
  | c :: rest, true, _, _ =>
    if isPySpace c then splitSentAux rest true none []
    else splitSentAux rest false (some c) [c]
  | c :: rest, false, prev, acc =>
    if isPySpace c ∧ isTermPunct prev then acc.reverse :: splitSentAux rest true none []
    else splitSentAux rest false (some c) (c :: acc)

/-- The sentence pieces of a text. -/
def splitSentences (l : List Char) : List (List Char) := splitSentAux l false none []

/-- The join of the first two sentence pieces with a single blank, as the
join of sentences[:2] in the source. -/
def firstTwoSentences (s : String) : String :=
  String.intercalate (" ") (((splitSentences s.data).take 2).map String.mk)

/-- The final step of the summary: append a period when the text is
nonempty and does not already end in sentence punctuation. -/
def finishSummary (s : String) : String :=
  let summary := firstTwoSentences s
  if summary ≠ "" ∧ ¬ isTermPunct (summary.data.getLast?) then summary ++ "." else summary

/-- news.py _create_summary: choose the trimmed description when the
description is truthy and its trimmed length exceeds 20; else the content
with truncation markers stripped and then trimmed, when the content is
truthy and its trimmed length exceeds 20; else the title; keep the first
two sentences and ensure terminal punctuation on a nonempty result. -/
def _create_summary (article : Article) : String :=
  let description := article.description
  let content := article.content
  let title := article.title
  let summary0 : String :=
    if description ≠ "" ∧ 20 < (pyStrip description.data).length then
      pyStripS description
    else if content ≠ "" ∧ 20 < (pyStrip content.data).length then
      pyStripS (String.mk (stripChunkMarkers content.data))
    else title
  let sentences := splitSentences summary0.data
  let summary1 := String.intercalate (" ") ((sentences.take 2).map String.mk)
  if summary1 ≠ "" ∧ ¬ isTermPunct (summary1.data.getLast?) then summary1 ++ "." else summary1

/-- A positive trimmed length forces a nonempty string, so the Python
truthiness guard in the summary branches is redundant there. -/
theorem ne_empty_of_strip_length {t : String} (h : 20 < (pyStrip t.data).length) :
    t ≠ "" := by
  intro he
  rw [he] at h
  simp [pyStrip, stripStart, stripEnd] at h

/-- The description branch of _create_summary. -/
theorem create_summary_description_branch (a : Article)
    (h : 20 < (pyStrip a.description.data).length) :
    _create_summary a = finishSummary (pyStripS a.description) := by
  simp only [_create_summary, finishSummary, firstTwoSentences]
  rw [if_pos (show a.description ≠ "" ∧ 20 < (pyStrip a.description.data).length from
    ⟨ne_empty_of_strip_length h, h⟩)]

/-- The content branch of _create_summary; the length test is on the raw
content, before the truncation markers are removed. -/
theorem create_summary_content_branch (a : Article)
    (h1 : (pyStrip a.description.data).length ≤ 20)
    (h2 : 20 < (pyStrip a.content.data).length) :
    _create_summary a
      = finishSummary (pyStripS (String.mk (stripChunkMarkers a.content.data))) := by
  have hnd : ¬ (a.description ≠ "" ∧ 20 < (pyStrip a.description.data).length) := by
    rintro ⟨-, hl⟩
    omega
  simp only [_create_summary, finishSummary, firstTwoSentences]
  rw [if_neg hnd, if_pos (show a.content ≠ "" ∧ 20 < (pyStrip a.content.data).length from
    ⟨ne_empty_of_strip_length h2, h2⟩)]

/-- The title fallback branch of _create_summary. -/
theorem create_summary_title_branch (a : Article)
    (h1 : (pyStrip a.description.data).length ≤ 20)
    (h2 : (pyStrip a.content.data).length ≤ 20) :
    _create_summary a = finishSummary a.title := by
  have hnd : ¬ (a.description ≠ "" ∧ 20 < (pyStrip a.description.data).length) := by
    rintro ⟨-, hl⟩
    omega
  have hnc : ¬ (a.content ≠ "" ∧ 20 < (pyStrip a.content.data).length) := by
    rintro ⟨-, hl⟩
    omega
  simp only [_create_summary, finishSummary, firstTwoSentences]
  rw [if_neg hnd, if_neg hnc]

/-- The finishing step yields the empty string or text ending in sentence
punctuation. -/
theorem finishSummary_empty_or_punct (s : String) :
    finishSummary s = "" ∨ isTermPunct ((finishSummary s).data.getLast?) = true := by
  simp only [finishSummary]
  split_ifs with h
  · right
    have hd : (firstTwoSentences s ++ ".").data
        = (firstTwoSentences s).data ++ ['.'] := rfl
    rw [hd, List.getLast?_concat]
    rfl
  · rcases not_and_or.mp h with h1 | h2
    · left
      exact not_not.mp h1
    · right
      exact not_not.mp h2

/-- C10 rework: _create_summary prefers the whitespace-trimmed description
when the trimmed description exceeds 20 characters; else the content, with
truncation markers stripped and then trimmed, when the trimmed raw content
exceeds 20 characters; else the title untrimmed. The chosen text keeps only
its first two sentence pieces (split at whitespace runs preceded by
sentence punctuation, rejoined with one blank) and gains a trailing period
only when the result is nonempty and lacks terminal punctuation, so an
article whose chosen text is empty yields the empty summary. -/
theorem c10_create_summary_spec :
    (∀ a : Article, 20 < (pyStrip a.description.data).length →
      _create_summary a = finishSummary (pyStripS a.description)) ∧
    (∀ a : Article, (pyStrip a.description.data).length ≤ 20 →
      20 < (pyStrip a.content.data).length →
      _create_summary a
        = finishSummary (pyStripS (String.mk (stripChunkMarkers a.content.data)))) ∧
    (∀ a : Article, (pyStrip a.description.data).length ≤ 20 →
      (pyStrip a.content.data).length ≤ 20 →
      _create_summary a = finishSummary a.title) ∧
    (∀ a : Article, _create_summary a = "" ∨
      isTermPunct ((_create_summary a).data.getLast?) = true) := by
  refine ⟨create_summary_description_branch, create_summary_content_branch,
    create_summary_title_branch, ?_⟩
  intro a
  by_cases h1 : 20 < (pyStrip a.description.data).length
  · rw [create_summary_description_branch a h1]
    exact finishSummary_empty_or_punct _
  · push_neg at h1
    by_cases h2 : 20 < (pyStrip a.content.data).length
    · rw [create_summary_content_branch a h1 h2]
      exact finishSummary_empty_or_punct _
    · push_neg at h2
      rw [create_summary_title_branch a h1 h2]
      exact finishSummary_empty_or_punct _

/-- Witness for c10_create_summary_spec: a long description article follows
the description branch. -/
theorem c10_create_summary_spec_witness :
    20 < (pyStrip (({ description := "This is a long enough description. More." } :
        Article).description.data)).length ∧
    _create_summary { description := "This is a long enough description. More." }
      = finishSummary (pyStripS (({ description :=
          "This is a long enough description. More." } : Article).description)) :=
  ⟨by decide,
    c10_create_summary_spec.1
      { description := "This is a long enough description. More." } (by decide)⟩

/-- C10 counterexample: the all-empty article yields the empty summary,
which does not end in terminal punctuation, so the summary does not always
end with terminal punctuation as claimed. -/
theorem c10_counterexample_empty_article :
    _create_summary ({} : Article) = "" ∧
    isTermPunct ((_create_summary ({} : Article)).data.getLast?) = false :=
  ⟨by decide, by decide⟩

/-! ### C6: fence-wrapped and bare payloads extract identically -/

/-- The wrapping named by the claim: an opening fence with a language tag on
the first line, the payload, then a closing fence on its own line. -/
def wrapFence (tag payload : List Char) : List Char :=
  fenceMarker ++ tag ++ '\n' :: payload ++ '\n' :: fenceMarker

/-- The backtick character is not whitespace and is not a newline. -/
theorem fence_chars : isPySpace (Char.ofNat 96) = false ∧ Char.ofNat 96 ≠ '\n' := by
  decide

/-- Dropping leading whitespace keeps a list whose head is not whitespace. -/
theorem stripStart_cons_of_neg {c : Char} (h : isPySpace c = false) (l : List Char) :
    stripStart (c :: l) = c :: l := by
  simp [stripStart, List.dropWhile_cons, h]

/-- Trimming trailing whitespace keeps a list whose last element is not
whitespace. -/
theorem stripEnd_concat_of_neg {c : Char} (h : isPySpace c = false) (l : List Char) :
    stripEnd (l ++ [c]) = l ++ [c] := by
  simp [stripEnd, List.reverse_append, List.dropWhile_cons, h]

/-- Trimming trailing whitespace absorbs a trailing whitespace character. -/
theorem stripEnd_concat_of_pos {c : Char} (h : isPySpace c = true) (l : List Char) :
    stripEnd (l ++ [c]) = stripEnd l := by
  simp [stripEnd, List.reverse_append, List.dropWhile_cons, h]

/-- Stripping ignores one trailing newline. -/
theorem pyStrip_concat_newline (l : List Char) : pyStrip (l ++ ['\n']) = pyStrip l := by
  simp [pyStrip, stripEnd_concat_of_pos (by decide : isPySpace '\n' = true)]

/-- The wrapped reply is already stripped: it begins and ends with a
backtick. -/
theorem pyStrip_wrapFence (tag P : List Char) :
    pyStrip (wrapFence tag P) = wrapFence tag P := by
  have hb : isPySpace (Char.ofNat 96) = false := fence_chars.1
  have h1 : wrapFence tag P =
      (fenceMarker ++ tag ++ '\n' :: P ++ '\n' :: [Char.ofNat 96, Char.ofNat 96])
        ++ [Char.ofNat 96] := by
    simp [wrapFence, fenceMarker]
  have h2 : stripEnd (wrapFence tag P) = wrapFence tag P := by
    rw [h1, stripEnd_concat_of_neg hb]
  rw [pyStrip, h2]
  have h3 : wrapFence tag P =
      Char.ofNat 96 :: ([Char.ofNat 96, Char.ofNat 96]
        ++ tag ++ '\n' :: P ++ '\n' :: fenceMarker) := by
    simp [wrapFence, fenceMarker]
  rw [h3, stripStart_cons_of_neg hb]

/-- The wrapped reply starts with the fence marker. -/
theorem isPrefixOf_wrapFence (tag P : List Char) :
    fenceMarker.isPrefixOf (wrapFence tag P) = true := by
  have : wrapFence tag P = fenceMarker ++ (tag ++ '\n' :: P ++ '\n' :: fenceMarker) := by
    simp [wrapFence]
  rw [this]
  exact List.isPrefixOf_iff_prefix.mpr (List.prefix_append _ _)

/-- Finding a character that is absent from the first block lands at the
first occurrence after it. -/
theorem findCharFrom_append (c : Char) :
    ∀ (l1 l2 : List Char) (i : Nat), c ∉ l1 →
      findCharFrom c (l1 ++ c :: l2) i = (i + l1.length : Nat)
  | [], l2, i, _ => by simp [findCharFrom]
  | x :: l1, l2, i, h => by
    have hx : ¬ (x = c) := fun he => h (by simp [he])
    simp only [List.cons_append, findCharFrom, if_neg hx, List.append_eq]
    rw [findCharFrom_append c l1 l2 (i + 1) (fun hm => h (List.mem_cons_of_mem _ hm))]
    simp only [List.length_cons]
    push_cast
    omega

/-- The first newline of the wrapped reply sits right after the opening
fence and the tag. -/
theorem pyFindChar_wrapFence (tag P : List Char) (htag : '\n' ∉ tag) :
    pyFindChar '\n' (wrapFence tag P) = ((3 + tag.length : Nat) : Int) := by
  have hsplit : wrapFence tag P =
      (fenceMarker ++ tag) ++ '\n' :: (P ++ '\n' :: fenceMarker) := by
    simp [wrapFence]
  have hnot : '\n' ∉ fenceMarker ++ tag := by
    intro hm
    rcases List.mem_append.mp hm with hm | hm
    · revert hm
      decide
    · exact htag hm
  rw [pyFindChar, hsplit, findCharFrom_append _ _ _ 0 hnot]
  simp only [List.length_append, fenceMarker, List.length_cons, List.length_nil]
  push_cast
  omega

/-- Scanning the fence marker over itself finds it at the start. -/
theorem rfindFrom_fence_self (i : Nat) (best : Int) :
    rfindFrom fenceMarker fenceMarker i best = (i : Int) := by
  simp [rfindFrom, fenceMarker, List.isPrefixOf]

/-- The last fence occurrence in any block followed by a final fence is the
final fence itself. -/
theorem rfindFrom_append_fence :
    ∀ (A : List Char) (i : Nat) (best : Int),
      rfindFrom fenceMarker (A ++ fenceMarker) i best = ((i + A.length : Nat) : Int)
  | [], i, best => by
    simp only [List.nil_append, List.length_nil, Nat.add_zero]
    exact rfindFrom_fence_self i best
  | x :: A, i, best => by
    simp only [List.cons_append, rfindFrom, List.append_eq]
    rw [rfindFrom_append_fence A (i + 1) _]
    simp only [List.length_cons]
    push_cast
    omega

/-- The last fence of the wrapped reply starts right before its final three
characters. -/
theorem pyRFind_wrapFence (tag P : List Char) :
    pyRFind fenceMarker (wrapFence tag P) =
      ((5 + tag.length + P.length : Nat) : Int) := by
  have hsplit : wrapFence tag P =
      (fenceMarker ++ tag ++ '\n' :: P ++ ['\n']) ++ fenceMarker := by
    simp [wrapFence, fenceMarker]
  rw [pyRFind, hsplit, rfindFrom_append_fence]
  simp only [List.length_append, fenceMarker, List.length_cons, List.length_nil]
  push_cast
  omega

/-- C6: wrapping a payload in a three-backtick fence with a language tag on
the opening line is transparent to the Response Parser: the fence-stripped
wrapped reply and the bare reply both reduce to the stripped payload, so
json.loads sees the identical text and decodes the identical value. The tag
must not contain a newline (it sits on the opening line) and the stripped
payload must not itself begin with a fence, which holds for every JSON
payload. -/
theorem c6_fence_wrapping_transparent :
    ∀ (tag P : List Char), '\n' ∉ tag →
      fenceMarker.isPrefixOf (pyStrip P) = false →
      extractPayload (wrapFence tag P) = pyStrip P ∧
      extractPayload P = pyStrip P ∧
      extractPayload (wrapFence tag P) = extractPayload P := by
  intro tag P htag hbare
  have hwrapped : extractPayload (wrapFence tag P) = pyStrip P := by
    simp only [extractPayload]
    rw [pyStrip_wrapFence, isPrefixOf_wrapFence, if_pos rfl,
      pyFindChar_wrapFence tag P htag, pyRFind_wrapFence]
    rw [if_pos (by constructor <;> · push_cast; omega)]
    simp only [Int.toNat_natCast]
    have hpre : wrapFence tag P =
        (fenceMarker ++ tag ++ ['\n']) ++ ((P ++ ['\n']) ++ fenceMarker) := by
      simp [wrapFence, fenceMarker]
    have hdropn : 3 + tag.length + 1 = (fenceMarker ++ tag ++ ['\n']).length := by
      simp [fenceMarker]
      omega
    have htaken : 5 + tag.length + P.length - (3 + tag.length) - 1
        = (P ++ ['\n']).length := by
      simp
      omega
    rw [hpre, hdropn, List.drop_left, htaken, List.take_left]
    exact pyStrip_concat_newline P
  have hplain : extractPayload P = pyStrip P := by
    simp [extractPayload, hbare]
  exact ⟨hwrapped, hplain, hwrapped.trans hplain.symm⟩

/-- Witness for c6_fence_wrapping_transparent: a json language tag and a
small JSON object payload. -/
theorem c6_fence_wrapping_transparent_witness :
    ('\n' ∉ ("json").data) ∧
    fenceMarker.isPrefixOf (pyStrip (("\x7b\"rundown\": []\x7d").data)) = false ∧
    extractPayload (wrapFence (("json").data) (("\x7b\"rundown\": []\x7d").data))
      = extractPayload (("\x7b\"rundown\": []\x7d").data) :=
  ⟨by decide, by decide,
    (c6_fence_wrapping_transparent (("json").data) (("\x7b\"rundown\": []\x7d").data)
      (by decide) (by decide)).2.2⟩

end Newscast
